import Mathlib

/-!
Shallow embedding of `scripts/generate_issuance_pack.py` (AFGC Issuance Pack
Generator v1.2) and verification of the specification's claims about it.

Modelling decisions, all driven by the source:
* The filesystem under `packs/` is a `Store`: an association list from paths to
  file data where a write shadows older bindings (so overwriting a path is
  observable as a change of what a read returns).
* The rendered PDF is modelled by the structured content the script feeds the
  external renderer (`story` plus the pikepdf XMP metadata): for a fixed
  rendering engine the produced bytes are a function of exactly this content.
* The SHA-256 hasher (`hashlib.sha256(...).hexdigest()`) and the byte-size
  function (`stat().st_size`) are external to the script's logic and appear as
  parameters `h` and `sz` of the pipeline; every theorem quantifies over them.
* External calls that can raise (reportlab's `doc.build`, the pikepdf pass,
  `git commit/push`) are given Boolean outcome parameters; a raising call
  leaves the files written so far in place, as on a real filesystem.
* The Airtable side is modelled by record field sets and by the list of
  `table.update` payloads the run issues.
-/

namespace AFGC

/-- An Airtable cell value: string field, checkbox, or JSON null. -/
inductive FieldVal where
  | str (v : String)
  | boolean (b : Bool)
  | null
deriving DecidableEq

/-- A record's field set: the `fields` dict of an Airtable record. -/
abbrev Fields := List (String × FieldVal)

/-- Python `dict` lookup on a field set: first binding wins, `none` if absent. -/
def Fields.find : Fields → String → Option FieldVal
  | [], _ => none
  | (k, v) :: rest, key => if k = key then some v else Fields.find rest key

/-- `fields.get(key, default)` rendered to a string the way the script's
f-strings render the value. -/
def Fields.get (fields : Fields) (key default : String) : String :=
  match Fields.find fields key with
  | some (.str v) => v
  | some (.boolean b) => if b then "True" else "False"
  | some .null => "None"
  | none => default

/-- Setting one field of a record, as `table.update` does on the Airtable side. -/
def Fields.set : Fields → String → FieldVal → Fields
  | [], key, v => [(key, v)]
  | (k, w) :: rest, key, v =>
    if k = key then (key, v) :: rest else (k, w) :: Fields.set rest key v

/-- Applying a whole `table.update` payload to a record's field set. -/
def applyUpdatePayload (fields : Fields) (payload : List (String × FieldVal)) : Fields :=
  payload.foldl (fun fs kv => Fields.set fs kv.1 kv.2) fields

/-- An Airtable record: opaque record id plus its field set. -/
structure CertRecord where
  id : String
  fields : Fields
deriving DecidableEq

/-- The selection formula of `get_pending_certifications` (line 50):
`AND({Status}='Active', {Issue_Now}=TRUE(), {Issuance_Pack_Generated}!=TRUE())`. -/
def isPending (fields : Fields) : Bool :=
  decide (Fields.find fields "Status" = some (.str "Active"))
    && decide (Fields.find fields "Issue_Now" = some (.boolean true))
    && !decide (Fields.find fields "Issuance_Pack_Generated" = some (.boolean true))

/-- `get_pending_certifications(table)` (lines 48–51): the records the formula
selects, in table order. -/
def get_pending_certifications (table : List CertRecord) : List CertRecord :=
  table.filter (fun cert => isPending cert.fields)

/-- A filesystem path, as directory plus file name (the script only forms
`<dir>/<name>` paths and reads back `Path.name`). -/
structure FPath where
  parent : String
  name : String
deriving DecidableEq

/-- The XMP metadata the pikepdf pass writes (lines 196–203). -/
structure PdfMeta where
  dcTitle : String
  dcCreator : String
  dcDescription : String
  pdfProducer : String
  xmpCreateDate : String
deriving DecidableEq

/-- The content of the generated PDF: everything `generate_pdf` feeds the
external renderer, which determines the produced bytes for a fixed engine. -/
structure PdfDoc where
  title : String
  subtitle : String
  rows : List (String × String)
  generatedLine : String
  certificationLine : String
  registryLine : String
  meta : Option PdfMeta
deriving DecidableEq

/-- Data stored in one file: a rendered PDF, a text file, or a ZIP archive
holding an ordered list of named members. -/
inductive FileData where
  | pdf (d : PdfDoc)
  | text (s : String)
  | zip (entries : List (String × FileData))

/-- The filesystem: newest binding first, so a write shadows older ones. -/
abbrev Store := List (FPath × FileData)

/-- Writing (creating or overwriting) a file. -/
def Store.write (store : Store) (p : FPath) (d : FileData) : Store :=
  (p, d) :: store

/-- Reading a file: the most recent write to the path, if any. -/
def Store.read : Store → FPath → Option FileData
  | [], _ => none
  | (q, d) :: rest, p => if q = p then some d else Store.read rest p

/-- `GITHUB_PAGES_BASE` (line 42). -/
def GITHUB_PAGES_BASE : String := "https://ttony106-source.github.io/afgc-registry"

/-- `PACKS_DIR` (line 45). -/
def PACKS_DIR : String := "packs"

/-- `cert_id = fields.get('Certification_ID', 'Unknown')` (lines 128 and 293). -/
def cert_idOf (fields : Fields) : String :=
  Fields.get fields "Certification_ID" "Unknown"

/-- `cert_dir = PACKS_DIR / cert_id` (line 298). -/
def cert_dirOf (fields : Fields) : String :=
  PACKS_DIR ++ "/" ++ cert_idOf fields

/-- The PDF's file name `<cert_id>_issuance_pack.pdf` (line 299). -/
def pdf_nameOf (fields : Fields) : String :=
  cert_idOf fields ++ "_issuance_pack.pdf"

/-- `output_path = cert_dir / f"{cert_id}_issuance_pack.pdf"` (line 299). -/
def output_pathOf (fields : Fields) : FPath :=
  ⟨cert_dirOf fields, pdf_nameOf fields⟩

/-- The contents manifest's path (line 56). -/
def contents_manifest_pathOf (fields : Fields) : FPath :=
  ⟨cert_dirOf fields, "CONTENTS_MANIFEST.txt"⟩

/-- The ZIP's file name `<cert_id>_issuance_pack.zip` (line 112). -/
def zip_nameOf (fields : Fields) : String :=
  cert_idOf fields ++ "_issuance_pack.zip"

/-- The ZIP's path (line 113). -/
def zip_pathOf (fields : Fields) : FPath :=
  ⟨cert_dirOf fields, zip_nameOf fields⟩

/-- The master manifest's path (line 80). -/
def master_manifest_pathOf (fields : Fields) : FPath :=
  ⟨cert_dirOf fields, "MANIFEST.txt"⟩

/-- The `story` content built by `generate_pdf` (lines 125–192), before the
pikepdf metadata pass.  `now` is the formatted `datetime.now(timezone.utc)`
timestamp string. -/
def buildStory (fields : Fields) (now : String) : PdfDoc :=
  let cert_id := Fields.get fields "Certification_ID" "Unknown"
  let entity_name := Fields.get fields "Entity_Name" "Unknown Entity"
  let jurisdiction := Fields.get fields "Jurisdiction" ""
  let issued_date := Fields.get fields "Issued_Date" ""
  let expiration_date := Fields.get fields "Expiration_Date" ""
  let scope := Fields.get fields "High_Level_Scope" ""
  let entity_type := Fields.get fields "Entity_Type" ""
  { title := "AI Fiduciary Governance Certification"
    subtitle := "Official Issuance Pack"
    rows := [("Certification ID:", cert_id),
             ("Entity Name:", entity_name),
             ("Entity Type:", entity_type),
             ("Jurisdiction:", jurisdiction),
             ("Issue Date:", issued_date),
             ("Expiration Date:", expiration_date),
             ("Scope:", scope)]
    generatedLine := "Generated: " ++ now
    certificationLine := "This document certifies compliance with AFGC governance standards."
    registryLine := "Registry URL: " ++ GITHUB_PAGES_BASE ++ "/registry/"
    meta := none }

/-- The XMP metadata written by the pikepdf pass (lines 196–202). -/
def pdfMetaOf (fields : Fields) (now : String) : PdfMeta :=
  let cert_id := Fields.get fields "Certification_ID" "Unknown"
  let entity_name := Fields.get fields "Entity_Name" "Unknown Entity"
  { dcTitle := "AFGC Certification - " ++ cert_id
    dcCreator := "AFGC Registry System"
    dcDescription := "Official issuance pack for " ++ entity_name
    pdfProducer := "AFGC Issuance Pack Generator"
    xmpCreateDate := now }

/-- The final document content at `output_path` after the pikepdf pass
(`pdfa_path.replace(output_path)`, line 205). -/
def pdfDocOf (fields : Fields) (now : String) : PdfDoc :=
  { buildStory fields now with meta := some (pdfMetaOf fields now) }

/-- Outcomes of the external calls inside `generate_pdf`: `doc.build`
(reportlab, line 193) and the pikepdf metadata pass (lines 196–205).
`false` means the call raises. -/
structure EntryExt where
  buildOk : Bool
  pdfaOk : Bool
deriving DecidableEq

/-- `generate_pdf(cert_data, output_path)` (lines 125–207): builds the story,
writes `output_path` via `doc.build`, rewrites it with XMP metadata via
pikepdf, and returns the SHA-256 of the final bytes at `output_path`.  A
raising external call leaves the files written so far in place and propagates
the exception. -/
def generate_pdf (h : FileData → String) (ext : EntryExt) (store : Store)
    (cert_data : CertRecord) (output_path : FPath) (now : String) :
    Store × Except String String :=
  let fields := cert_data.fields
  if ext.buildOk then
    let story := buildStory fields now
    let store := Store.write store output_path (.pdf story)
    if ext.pdfaOk then
      let final := pdfDocOf fields now
      let store := Store.write store output_path (.pdf final)
      (store, .ok (h (.pdf final)))
    else
      (store, .error "pikepdf error")
  else
    (store, .error "render error")

/-- The lines of `CONTENTS_MANIFEST.txt` (lines 57–71). -/
def contentsManifestLines (cert_id pdf_name pdf_sha256 : String) (pdf_size : Nat)
    (timestamp : String) : List String :=
  ["AFGC ISSUANCE PACK — CONTENTS MANIFEST",
   "Certification_ID: " ++ cert_id,
   "Generated_UTC: " ++ timestamp,
   "Pack_Version: 1.2",
   "",
   "FILE",
   "1) " ++ pdf_name,
   "   Standard: PDF/A-2b",
   "   SHA-256: " ++ pdf_sha256,
   "   Size_Bytes: " ++ toString pdf_size,
   "",
   "VERIFICATION",
   "- Compute SHA-256 of the PDF and compare to value above."]

/-- `generate_contents_manifest` (lines 54–73): writes the inner manifest into
the certification directory and returns its path. -/
def generate_contents_manifest (store : Store) (cert_dir cert_id : String)
    (pdf_path : FPath) (pdf_sha256 : String) (pdf_size : Nat) (timestamp : String) :
    Store × FPath :=
  let manifest_path : FPath := ⟨cert_dir, "CONTENTS_MANIFEST.txt"⟩
  (Store.write store manifest_path
      (.text (String.intercalate "\n"
        (contentsManifestLines cert_id pdf_path.name pdf_sha256 pdf_size timestamp))),
   manifest_path)

/-- The lines of the master `MANIFEST.txt` (lines 79–105). -/
def masterManifestLines (cert_id pdf_sha256 : String) (pdf_size : Nat)
    (zip_sha256 : String) (zip_size : Nat) (timestamp : String) : List String :=
  let base_url := GITHUB_PAGES_BASE ++ "/packs/" ++ cert_id
  ["AFGC ISSUANCE PACK — MASTER MANIFEST",
   "Certification_ID: " ++ cert_id,
   "Generated_UTC: " ++ timestamp,
   "Pack_Version: 1.2",
   "Base_URL: " ++ base_url ++ "/",
   "",
   "FILES",
   "1) " ++ cert_id ++ "_issuance_pack.pdf",
   "   Standard: PDF/A-2b",
   "   SHA-256: " ++ pdf_sha256,
   "   Size_Bytes: " ++ toString pdf_size,
   "   URL: " ++ base_url ++ "/" ++ cert_id ++ "_issuance_pack.pdf",
   "",
   "2) " ++ cert_id ++ "_issuance_pack.zip",
   "   SHA-256: " ++ zip_sha256,
   "   Size_Bytes: " ++ toString zip_size,
   "   URL: " ++ base_url ++ "/" ++ cert_id ++ "_issuance_pack.zip",
   "",
   "VERIFICATION",
   "- Verify PDF integrity: compute SHA-256 of the PDF and compare to item (1).",
   "- Verify ZIP integrity: compute SHA-256 of the ZIP and compare to item (2).",
   "- ZIP includes CONTENTS_MANIFEST.txt for internal file verification."]

/-- `generate_master_manifest` (lines 76–107): writes the outer manifest and
returns its path. -/
def generate_master_manifest (store : Store) (cert_dir cert_id : String)
    (pdf_sha256 : String) (pdf_size : Nat) (zip_sha256 : String) (zip_size : Nat)
    (timestamp : String) : Store × FPath :=
  let manifest_path : FPath := ⟨cert_dir, "MANIFEST.txt"⟩
  (Store.write store manifest_path
      (.text (String.intercalate "\n"
        (masterManifestLines cert_id pdf_sha256 pdf_size zip_sha256 zip_size timestamp))),
   manifest_path)

/-- `generate_zip` (lines 110–122): writes each declared file that exists into
the archive (a file absent from the store is skipped by the
`file_path.exists()` guard, line 117), stores the archive, and returns its
path together with the SHA-256 of the archive bytes. -/
def generate_zip (h : FileData → String) (store : Store) (cert_dir cert_id : String)
    (files_to_zip : List FPath) : Store × FPath × String :=
  let zip_filename := cert_id ++ "_issuance_pack.zip"
  let zip_path : FPath := ⟨cert_dir, zip_filename⟩
  let entries := files_to_zip.foldl
    (fun acc file_path =>
      match Store.read store file_path with
      | some d => acc ++ [(file_path.name, d)]
      | none => acc) []
  (Store.write store zip_path (.zip entries), zip_path, h (.zip entries))

/-- `git_commit_packs()` (lines 210–234): in DRY_RUN it reports success without
publishing; otherwise the outcome of `git add/commit/push` is the external
`commitOk`. -/
def git_commit_packs (dryRun commitOk : Bool) : Bool :=
  if dryRun then true else commitOk

/-- `pack_url` (line 243). -/
def pack_url (cert_id : String) : String :=
  GITHUB_PAGES_BASE ++ "/packs/" ++ cert_id ++ "/" ++ cert_id ++ "_issuance_pack.pdf"

/-- `zip_url` (line 244). -/
def zip_url (cert_id : String) : String :=
  GITHUB_PAGES_BASE ++ "/packs/" ++ cert_id ++ "/" ++ cert_id ++ "_issuance_pack.zip"

/-- The field payload `update_airtable_record` sends on success (lines 247–256). -/
def successPayload (cert_id pdf_sha256 zip_sha256 now : String) : List (String × FieldVal) :=
  [("Issuance_Pack_Generated", .boolean true),
   ("Issuance_Pack_URL", .str (pack_url cert_id)),
   ("Issuance_Pack_SHA256", .str pdf_sha256),
   ("Issuance_Pack_ZIP_URL", .str (zip_url cert_id)),
   ("Issuance_Pack_ZIP_SHA256", .str zip_sha256),
   ("Issuance_Dispatch_Status", .str "Sent"),
   ("Issuance_Dispatch_At", .str now),
   ("Issue_Now", .boolean false)]

/-- The field payload sent on failure (lines 258–262). -/
def failurePayload (error_msg : Option String) (now : String) : List (String × FieldVal) :=
  [("Issuance_Dispatch_Status", .str "Failed"),
   ("Issuance_Error_Log", .str (error_msg.getD "Unknown error")),
   ("Issuance_Dispatch_At", .str now)]

/-- One `table.update(record_id, payload)` call. -/
structure AirtableUpdate where
  record_id : String
  payload : List (String × FieldVal)
deriving DecidableEq

/-- `update_airtable_record` (lines 237–262): no call in DRY_RUN, otherwise one
`table.update` with the success or the failure payload. -/
def update_airtable_record (dryRun : Bool) (record_id cert_id : String)
    (pdf_sha256 zip_sha256 : Option String) (success : Bool)
    (error_msg : Option String) (now : String) : Option AirtableUpdate :=
  if dryRun then none
  else if success then
    some ⟨record_id,
      successPayload cert_id (pdf_sha256.getD "None") (zip_sha256.getD "None") now⟩
  else
    some ⟨record_id, failurePayload error_msg now⟩

/-- A member of `main`'s `generated` list (lines 323–329). -/
structure GeneratedItem where
  record_id : String
  cert_id : String
  pdf_sha256 : String
  zip_sha256 : String
deriving DecidableEq

/-- A member of `main`'s `failed` list (line 333). -/
structure FailedItem where
  record_id : String
  cert_id : String
  error : String
deriving DecidableEq

/-- The body of `main`'s per-certification loop (lines 290–333): generate the
PDF, the contents manifest, the ZIP and the master manifest, appending the
entry to `generated`, or catch the exception and append it to `failed`. -/
def processEntry (h : FileData → String) (sz : FileData → Nat) (ext : EntryExt)
    (now : String) (store : Store) (cert : CertRecord) :
    Store × (GeneratedItem ⊕ FailedItem) :=
  let record_id := cert.id
  let cert_id := cert_idOf cert.fields
  let cert_dir := PACKS_DIR ++ "/" ++ cert_id
  let output_path : FPath := ⟨cert_dir, cert_id ++ "_issuance_pack.pdf"⟩
  match generate_pdf h ext store cert output_path now with
  | (store, .error e) => (store, .inr ⟨record_id, cert_id, e⟩)
  | (store, .ok pdf_sha256) =>
    let pdf_size := match Store.read store output_path with
      | some d => sz d
      | none => 0
    let res := generate_contents_manifest store cert_dir cert_id output_path
      pdf_sha256 pdf_size now
    let store := res.1
    let contents_manifest_path := res.2
    let files_to_zip := [output_path, contents_manifest_path]
    let zres := generate_zip h store cert_dir cert_id files_to_zip
    let store := zres.1
    let zip_path := zres.2.1
    let zip_sha256 := zres.2.2
    let zip_size := match Store.read store zip_path with
      | some d => sz d
      | none => 0
    let mres := generate_master_manifest store cert_dir cert_id pdf_sha256 pdf_size
      zip_sha256 zip_size now
    (mres.1, .inl ⟨record_id, cert_id, pdf_sha256, zip_sha256⟩)

/-- The `for cert in pending` loop of `main` (lines 290–333), threading the
filesystem through and collecting `generated` and `failed` in order. -/
def processAll (h : FileData → String) (sz : FileData → Nat)
    (extOf : String → EntryExt) (now : String) :
    Store → List CertRecord → Store × List GeneratedItem × List FailedItem
  | store, [] => (store, [], [])
  | store, cert :: rest =>
    match processEntry h sz (extOf cert.id) now store cert with
    | (store', Sum.inl g) =>
      let res := processAll h sz extOf now store' rest
      (res.1, g :: res.2.1, res.2.2)
    | (store', Sum.inr f) =>
      let res := processAll h sz extOf now store' rest
      (res.1, res.2.1, f :: res.2.2)

/-- The observable result of one run of `main`. -/
structure RunResult where
  store : Store
  generated : List GeneratedItem
  failed : List FailedItem
  published : Option Store
  updates : List AirtableUpdate

/-- `main` (lines 265–352), from the selection query on: process every pending
certification, commit and push `packs/` when anything was generated (lines
335–337), then send the per-record status updates (lines 339–349).
`published` is the tree `git push` makes durably visible: `git add packs/`
stages everything under `packs/`, so a successful live commit publishes the
whole store. -/
def main (h : FileData → String) (sz : FileData → Nat) (extOf : String → EntryExt)
    (commitOk dryRun : Bool) (now : String) (store₀ : Store)
    (records : List CertRecord) : RunResult :=
  let pending := get_pending_certifications records
  let res := processAll h sz extOf now store₀ pending
  let store := res.1
  let generated := res.2.1
  let failed := res.2.2
  let commit_success := git_commit_packs dryRun commitOk
  let published :=
    if generated.isEmpty then none
    else if dryRun then none
    else if commitOk then some store else none
  let generatedUpdates :=
    if generated.isEmpty then []
    else generated.filterMap (fun item =>
      update_airtable_record dryRun item.record_id item.cert_id
        (some item.pdf_sha256) (some item.zip_sha256) commit_success
        (if commit_success then none else some "Git commit failed") now)
  let failedUpdates := failed.filterMap (fun item =>
    update_airtable_record dryRun item.record_id item.cert_id none none false
      (some item.error) now)
  { store := store, generated := generated, failed := failed,
    published := published, updates := generatedUpdates ++ failedUpdates }

/-! ### Infrastructure lemmas -/

theorem Store.read_write_self (store : Store) (p : FPath) (d : FileData) :
    Store.read (Store.write store p d) p = some d := by
  simp [Store.read, Store.write]

theorem Store.read_write_ne (store : Store) (p q : FPath) (d : FileData)
    (hne : p ≠ q) : Store.read (Store.write store p d) q = Store.read store q := by
  simp [Store.read, Store.write, hne]

theorem append_ne_of_not_suffix (s a t : String) (hnot : ¬ a.data <:+ t.data) :
    s ++ a ≠ t := by
  intro hcontra
  apply hnot
  rw [← hcontra, String.data_append]
  exact List.suffix_append _ _

theorem append_left_cancel_str (s a b : String) (hcontra : s ++ a = s ++ b) : a = b := by
  have hd := congrArg String.data hcontra
  rw [String.data_append, String.data_append] at hd
  exact String.ext (List.append_cancel_left hd)

theorem pdf_name_ne_contents_name (cid : String) :
    cid ++ "_issuance_pack.pdf" ≠ "CONTENTS_MANIFEST.txt" :=
  append_ne_of_not_suffix _ _ _ (by decide)

theorem pdf_name_ne_master_name (cid : String) :
    cid ++ "_issuance_pack.pdf" ≠ "MANIFEST.txt" :=
  append_ne_of_not_suffix _ _ _ (by decide)

theorem zip_name_ne_contents_name (cid : String) :
    cid ++ "_issuance_pack.zip" ≠ "CONTENTS_MANIFEST.txt" :=
  append_ne_of_not_suffix _ _ _ (by decide)

theorem zip_name_ne_master_name (cid : String) :
    cid ++ "_issuance_pack.zip" ≠ "MANIFEST.txt" :=
  append_ne_of_not_suffix _ _ _ (by decide)

theorem pdf_name_ne_zip_name (cid : String) :
    cid ++ "_issuance_pack.pdf" ≠ cid ++ "_issuance_pack.zip" := by
  intro hcontra
  exact absurd (congrArg String.data (append_left_cancel_str _ _ _ hcontra)) (by decide)

/-! ### The artifact set a successful entry produces

These abbreviations name the values `processEntry` computes on the all-external
calls-succeed path; `processEntry_ok_eq` below proves they are exactly what the
code produces. -/

/-- The contents-manifest file data of one entry's pack. -/
def cmDataOf (h : FileData → String) (sz : FileData → Nat) (fields : Fields)
    (now : String) : FileData :=
  .text (String.intercalate "\n"
    (contentsManifestLines (cert_idOf fields) (pdf_nameOf fields)
      (h (.pdf (pdfDocOf fields now))) (sz (.pdf (pdfDocOf fields now))) now))

/-- The member list of one entry's ZIP archive. -/
def zipEntriesOf (h : FileData → String) (sz : FileData → Nat) (fields : Fields)
    (now : String) : List (String × FileData) :=
  [(pdf_nameOf fields, .pdf (pdfDocOf fields now)),
   ("CONTENTS_MANIFEST.txt", cmDataOf h sz fields now)]

/-- The ZIP archive file data of one entry's pack. -/
def zipDataOf (h : FileData → String) (sz : FileData → Nat) (fields : Fields)
    (now : String) : FileData :=
  .zip (zipEntriesOf h sz fields now)

/-- The master-manifest file data of one entry's pack. -/
def mmDataOf (h : FileData → String) (sz : FileData → Nat) (fields : Fields)
    (now : String) : FileData :=
  .text (String.intercalate "\n"
    (masterManifestLines (cert_idOf fields)
      (h (.pdf (pdfDocOf fields now))) (sz (.pdf (pdfDocOf fields now)))
      (h (zipDataOf h sz fields now)) (sz (zipDataOf h sz fields now)) now))

/-- The store after a fully successful `processEntry`, newest write first. -/
def packStoreOf (h : FileData → String) (sz : FileData → Nat) (now : String)
    (store : Store) (cert : CertRecord) : Store :=
  (master_manifest_pathOf cert.fields, mmDataOf h sz cert.fields now) ::
  (zip_pathOf cert.fields, zipDataOf h sz cert.fields now) ::
  (contents_manifest_pathOf cert.fields, cmDataOf h sz cert.fields now) ::
  (output_pathOf cert.fields, .pdf (pdfDocOf cert.fields now)) ::
  (output_pathOf cert.fields, .pdf (buildStory cert.fields now)) :: store

theorem contents_path_ne_output_path (fields : Fields) :
    contents_manifest_pathOf fields ≠ output_pathOf fields := by
  simp only [contents_manifest_pathOf, output_pathOf, ne_eq, FPath.mk.injEq,
    not_and, pdf_nameOf]
  intro _ hcontra
  exact pdf_name_ne_contents_name _ hcontra.symm

theorem processEntry_ok_eq (h : FileData → String) (sz : FileData → Nat)
    (now : String) (store : Store) (cert : CertRecord) :
    processEntry h sz ⟨true, true⟩ now store cert =
      (packStoreOf h sz now store cert,
       .inl ⟨cert.id, cert_idOf cert.fields, h (.pdf (pdfDocOf cert.fields now)),
             h (zipDataOf h sz cert.fields now)⟩) := by
  have h2 : ("CONTENTS_MANIFEST.txt" : String) ≠ cert_idOf cert.fields ++ "_issuance_pack.pdf" :=
    fun hcontra => pdf_name_ne_contents_name _ hcontra.symm
  simp only [processEntry, generate_pdf, if_true, Store.read_write_self,
    generate_contents_manifest, generate_zip, generate_master_manifest,
    List.foldl, packStoreOf, Store.write, contents_manifest_pathOf,
    output_pathOf, zip_pathOf, master_manifest_pathOf, cert_dirOf,
    pdf_nameOf, zip_nameOf, cmDataOf, zipEntriesOf, zipDataOf, mmDataOf,
    Store.read]
  simp [h2, Store.read, FPath.mk.injEq]

theorem processEntry_buildFail_eq (h : FileData → String) (sz : FileData → Nat)
    (pb : Bool) (now : String) (store : Store) (cert : CertRecord) :
    processEntry h sz ⟨false, pb⟩ now store cert =
      (store, .inr ⟨cert.id, cert_idOf cert.fields, "render error"⟩) := by
  simp [processEntry, generate_pdf]

theorem processEntry_pdfaFail_eq (h : FileData → String) (sz : FileData → Nat)
    (now : String) (store : Store) (cert : CertRecord) :
    processEntry h sz ⟨true, false⟩ now store cert =
      (Store.write store (output_pathOf cert.fields)
         (.pdf (buildStory cert.fields now)),
       .inr ⟨cert.id, cert_idOf cert.fields, "pikepdf error"⟩) := by
  simp [processEntry, generate_pdf, output_pathOf, cert_dirOf, pdf_nameOf]

/-! ### Field-set lemmas -/

theorem Fields.find_set_self (fs : Fields) (k : String) (v : FieldVal) :
    Fields.find (Fields.set fs k v) k = some v := by
  induction fs with
  | nil => simp [Fields.set, Fields.find]
  | cons kv rest ih =>
    obtain ⟨k', w⟩ := kv
    by_cases hk : k' = k
    · simp [Fields.set, hk, Fields.find]
    · simp [Fields.set, hk, Fields.find, ih]

theorem find_issue_now_after_success (fields : Fields) (cid ps zs t : String) :
    Fields.find (applyUpdatePayload fields (successPayload cid ps zs t)) "Issue_Now"
      = some (.boolean false) := by
  simp only [applyUpdatePayload, successPayload, List.foldl_cons, List.foldl_nil]
  exact Fields.find_set_self _ _ _

theorem isPending_after_success (fields : Fields) (cid ps zs t : String) :
    isPending (applyUpdatePayload fields (successPayload cid ps zs t)) = false := by
  simp [isPending, find_issue_now_after_success]

/-! ### Loop structure lemmas -/

theorem processEntry_out (h : FileData → String) (sz : FileData → Nat)
    (ext : EntryExt) (now : String) (store : Store) (cert : CertRecord) :
    (∃ g₃ g₄ s, processEntry h sz ext now store cert
        = (s, .inl ⟨cert.id, cert_idOf cert.fields, g₃, g₄⟩))
    ∨ (∃ e s, processEntry h sz ext now store cert
        = (s, .inr ⟨cert.id, cert_idOf cert.fields, e⟩)) := by
  obtain ⟨b1, b2⟩ := ext
  cases b1
  · exact .inr ⟨_, _, processEntry_buildFail_eq h sz b2 now store cert⟩
  · cases b2
    · exact .inr ⟨_, _, processEntry_pdfaFail_eq h sz now store cert⟩
    · exact .inl ⟨_, _, _, processEntry_ok_eq h sz now store cert⟩

theorem processAll_count (h : FileData → String) (sz : FileData → Nat)
    (extOf : String → EntryExt) (now : String) :
    ∀ (certs : List CertRecord) (store : Store) (r : String),
      ((processAll h sz extOf now store certs).2.1.map GeneratedItem.record_id).count r
        + ((processAll h sz extOf now store certs).2.2.map FailedItem.record_id).count r
        = (certs.map CertRecord.id).count r := by
  intro certs
  induction certs with
  | nil => intro store r; simp [processAll]
  | cons cert rest ih =>
    intro store r
    rcases processEntry_out h sz (extOf cert.id) now store cert with
      ⟨g₃, g₄, s, heq⟩ | ⟨e, s, heq⟩
    · simp only [processAll, heq, List.map_cons, List.count_cons]
      rw [← ih s r]
      by_cases hr : cert.id = r <;> (simp [hr]; try omega)
    · simp only [processAll, heq, List.map_cons, List.count_cons]
      rw [← ih s r]
      by_cases hr : cert.id = r <;> (simp [hr]; try omega)

theorem processAll_length (h : FileData → String) (sz : FileData → Nat)
    (extOf : String → EntryExt) (now : String) :
    ∀ (certs : List CertRecord) (store : Store),
      (processAll h sz extOf now store certs).2.1.length
        + (processAll h sz extOf now store certs).2.2.length = certs.length := by
  intro certs
  induction certs with
  | nil => intro store; simp [processAll]
  | cons cert rest ih =>
    intro store
    rcases processEntry_out h sz (extOf cert.id) now store cert with
      ⟨g₃, g₄, s, heq⟩ | ⟨e, s, heq⟩
    · simp only [processAll, heq, List.length_cons]
      rw [← ih s]; omega
    · simp only [processAll, heq, List.length_cons]
      rw [← ih s]; omega

/-! ### Path disequalities and reads over a freshly produced pack -/

theorem FPath.ne_of_name_ne {p q : FPath} (hne : p.name ≠ q.name) : p ≠ q :=
  fun hcontra => hne (congrArg FPath.name hcontra)

theorem mm_path_ne_output_path (fields : Fields) :
    master_manifest_pathOf fields ≠ output_pathOf fields :=
  FPath.ne_of_name_ne (fun hc => pdf_name_ne_master_name (cert_idOf fields) hc.symm)

theorem zip_path_ne_output_path (fields : Fields) :
    zip_pathOf fields ≠ output_pathOf fields :=
  FPath.ne_of_name_ne (fun hc => pdf_name_ne_zip_name (cert_idOf fields) hc.symm)

theorem mm_path_ne_zip_path (fields : Fields) :
    master_manifest_pathOf fields ≠ zip_pathOf fields :=
  FPath.ne_of_name_ne (fun hc => zip_name_ne_master_name (cert_idOf fields) hc.symm)

theorem mm_path_ne_cm_path (fields : Fields) :
    master_manifest_pathOf fields ≠ contents_manifest_pathOf fields :=
  FPath.ne_of_name_ne (show ("MANIFEST.txt" : String) ≠ "CONTENTS_MANIFEST.txt" by decide)

theorem zip_path_ne_cm_path (fields : Fields) :
    zip_pathOf fields ≠ contents_manifest_pathOf fields :=
  FPath.ne_of_name_ne (zip_name_ne_contents_name (cert_idOf fields))

theorem packStore_read_output (h : FileData → String) (sz : FileData → Nat)
    (now : String) (store : Store) (cert : CertRecord) :
    Store.read (packStoreOf h sz now store cert) (output_pathOf cert.fields)
      = some (.pdf (pdfDocOf cert.fields now)) := by
  simp [packStoreOf, Store.read, mm_path_ne_output_path cert.fields,
    zip_path_ne_output_path cert.fields, contents_path_ne_output_path cert.fields]

theorem packStore_read_zip (h : FileData → String) (sz : FileData → Nat)
    (now : String) (store : Store) (cert : CertRecord) :
    Store.read (packStoreOf h sz now store cert) (zip_pathOf cert.fields)
      = some (zipDataOf h sz cert.fields now) := by
  simp [packStoreOf, Store.read, mm_path_ne_zip_path cert.fields]

theorem packStore_read_cm (h : FileData → String) (sz : FileData → Nat)
    (now : String) (store : Store) (cert : CertRecord) :
    Store.read (packStoreOf h sz now store cert) (contents_manifest_pathOf cert.fields)
      = some (cmDataOf h sz cert.fields now) := by
  simp [packStoreOf, Store.read, mm_path_ne_cm_path cert.fields,
    zip_path_ne_cm_path cert.fields]

theorem packStore_read_mm (h : FileData → String) (sz : FileData → Nat)
    (now : String) (store : Store) (cert : CertRecord) :
    Store.read (packStoreOf h sz now store cert) (master_manifest_pathOf cert.fields)
      = some (mmDataOf h sz cert.fields now) := by
  simp [packStoreOf, Store.read]

/-- The document content determines the generation timestamp: for a fixed field
set, two generated documents coincide exactly when their timestamps do. -/
theorem pdfDocOf_inj_now (fields : Fields) (t t' : String) :
    pdfDocOf fields t = pdfDocOf fields t' ↔ t = t' := by
  constructor
  · intro hcontra
    have hmeta := congrArg PdfDoc.meta hcontra
    simp only [pdfDocOf, pdfMetaOf, Option.some.injEq, PdfMeta.mk.injEq] at hmeta
    exact hmeta.2.2.2.2
  · intro hsub
    rw [hsub]

/-! ### Characterizations of the run's update list -/

theorem filterMap_some_eq_map {α β : Type} (l : List α) (f : α → β) :
    l.filterMap (fun a => some (f a)) = l.map f := by
  induction l with
  | nil => rfl
  | cons a rest ih => simp [List.filterMap_cons, ih]

theorem main_generated_eq (h : FileData → String) (sz : FileData → Nat)
    (extOf : String → EntryExt) (commitOk dryRun : Bool) (now : String)
    (store₀ : Store) (records : List CertRecord) :
    (main h sz extOf commitOk dryRun now store₀ records).generated
      = (processAll h sz extOf now store₀ (get_pending_certifications records)).2.1 := rfl

theorem main_failed_eq (h : FileData → String) (sz : FileData → Nat)
    (extOf : String → EntryExt) (commitOk dryRun : Bool) (now : String)
    (store₀ : Store) (records : List CertRecord) :
    (main h sz extOf commitOk dryRun now store₀ records).failed
      = (processAll h sz extOf now store₀ (get_pending_certifications records)).2.2 := rfl

theorem main_updates_dry (h : FileData → String) (sz : FileData → Nat)
    (extOf : String → EntryExt) (commitOk : Bool) (now : String)
    (store₀ : Store) (records : List CertRecord) :
    (main h sz extOf commitOk true now store₀ records).updates = [] := by
  simp [main, update_airtable_record]

theorem main_updates_live (h : FileData → String) (sz : FileData → Nat)
    (extOf : String → EntryExt) (commitOk : Bool) (now : String)
    (store₀ : Store) (records : List CertRecord) :
    (main h sz extOf commitOk false now store₀ records).updates
      = (main h sz extOf commitOk false now store₀ records).generated.map (fun item =>
          (⟨item.record_id,
            if commitOk then successPayload item.cert_id item.pdf_sha256 item.zip_sha256 now
            else failurePayload (some "Git commit failed") now⟩ : AirtableUpdate))
        ++ (main h sz extOf commitOk false now store₀ records).failed.map (fun item =>
          (⟨item.record_id, failurePayload (some item.error) now⟩ : AirtableUpdate)) := by
  cases commitOk <;>
    · simp only [main, git_commit_packs, update_airtable_record, if_false,
        Bool.false_eq_true, ite_false, ite_true, Option.getD_some]
      rcases hgen : (processAll h sz extOf now store₀ (get_pending_certifications records)).2.1
        with _ | ⟨g, gen⟩ <;>
        simp [hgen, filterMap_some_eq_map]

theorem filter_rid_length (l : List AirtableUpdate) (x : String) :
    (l.filter (fun u => u.record_id == x)).length
      = (l.map AirtableUpdate.record_id).count x := by
  induction l with
  | nil => simp
  | cons u rest ih =>
    by_cases hx : u.record_id = x
    · simp [List.filter_cons, List.count_cons, hx, ih]
    · simp [List.filter_cons, List.count_cons, hx, ih]

theorem filter_eq_singleton_of_mem_of_length_one {α : Type} (l : List α) (p : α → Bool)
    (a : α) (ha : a ∈ l) (hpa : p a = true) (hone : (l.filter p).length = 1) :
    l.filter p = [a] := by
  obtain ⟨b, hb⟩ := List.length_eq_one.mp hone
  have hmem : a ∈ l.filter p := List.mem_filter.mpr ⟨ha, hpa⟩
  rw [hb] at hmem ⊢
  simp only [List.mem_singleton] at hmem
  rw [hmem]

/-! ### Concrete fixtures used by the closed theorems -/

/-- A concrete stand-in for the external SHA-256 hexdigest function. -/
def hFix : FileData → String := fun _ => "d0"

/-- A concrete stand-in for the external byte-size function. -/
def szFix : FileData → Nat := fun _ => 1024

/-- All external rendering calls succeed. -/
def extAllOk : String → EntryExt := fun _ => ⟨true, true⟩

/-- A pending certification record, as the selection formula requires. -/
def certRecCERT002 : CertRecord :=
  ⟨"recCERT002",
   [("Certification_ID", .str "CERT-002"), ("Status", .str "Active"),
    ("Issue_Now", .boolean true), ("Entity_Name", .str "Acme Corp")]⟩

/-- The store after a first, fully successful live run over `CERT-002`. -/
def storeAfterFirstRun : Store :=
  (main hFix szFix extAllOk true false "2025-01-01 00:00:00 UTC" [] [certRecCERT002]).store

/-- The store after re-running the pipeline over the same, still-pending record
(the prior run's status update failed, so its gating flags are unchanged). -/
def storeAfterSecondRun : Store :=
  (main hFix szFix extAllOk true false "2025-02-02 00:00:00 UTC"
    storeAfterFirstRun [certRecCERT002]).store

/-! ### Claim C1 -/

/-- Claim C1 (code bug evidence): the script has no reserve step and no
`AlreadyFinalized` check.  Re-running it against an entry whose namespace
already contains a complete prior pack — which happens whenever the prior run
published but its status update failed, leaving the record pending — simply
regenerates the pack and REPLACES the existing PDF at the same path with
different content (the embedded generation timestamp changed), contradicting
the script's own OPS RULE: "Never delete or modify existing pack files." -/
theorem C1_rerun_replaces_existing_pack_file :
    Store.read storeAfterFirstRun (output_pathOf certRecCERT002.fields)
      = some (.pdf (pdfDocOf certRecCERT002.fields "2025-01-01 00:00:00 UTC"))
    ∧ Store.read storeAfterSecondRun (output_pathOf certRecCERT002.fields)
      = some (.pdf (pdfDocOf certRecCERT002.fields "2025-02-02 00:00:00 UTC"))
    ∧ pdfDocOf certRecCERT002.fields "2025-01-01 00:00:00 UTC"
      ≠ pdfDocOf certRecCERT002.fields "2025-02-02 00:00:00 UTC" :=
  ⟨rfl, rfl, by decide⟩

/-! ### Claim C2 -/

/-- A store in which the contents manifest exists but the declared primary
document is absent. -/
def storeC2 : Store :=
  [(⟨"packs/CERT-001", "CONTENTS_MANIFEST.txt"⟩, .text "stub contents manifest")]

/-- Claim C2, counterexample: with the declared primary document absent,
archive assembly does not fail at all — it silently returns a normally-built
archive whose only member is the contents manifest, digest and all. -/
theorem C2_counterexample_zip_silently_skips_missing_input :
    generate_zip hFix storeC2 "packs/CERT-001" "CERT-001"
        [⟨"packs/CERT-001", "CERT-001_issuance_pack.pdf"⟩,
         ⟨"packs/CERT-001", "CONTENTS_MANIFEST.txt"⟩]
      = (Store.write storeC2 ⟨"packs/CERT-001", "CERT-001_issuance_pack.zip"⟩
           (.zip [("CONTENTS_MANIFEST.txt", .text "stub contents manifest")]),
         ⟨"packs/CERT-001", "CERT-001_issuance_pack.zip"⟩,
         hFix (.zip [("CONTENTS_MANIFEST.txt", .text "stub contents manifest")])) := rfl

/-- The members the archive actually receives: the declared inputs that exist. -/
def zipSelect (store : Store) (files_to_zip : List FPath) : List (String × FileData) :=
  files_to_zip.filterMap (fun p => (Store.read store p).map (fun d => (p.name, d)))

/-- Claim C2, amended: archive assembly never fails on an absent declared
input; the `exists()` guard silently skips it, and the produced archive
contains exactly the declared inputs that exist, in declared order. -/
theorem C2_amended_zip_archives_existing_declared_inputs
    (h : FileData → String) (store : Store) (cert_dir cert_id : String)
    (files_to_zip : List FPath) :
    generate_zip h store cert_dir cert_id files_to_zip
      = (Store.write store ⟨cert_dir, cert_id ++ "_issuance_pack.zip"⟩
           (.zip (zipSelect store files_to_zip)),
         ⟨cert_dir, cert_id ++ "_issuance_pack.zip"⟩,
         h (.zip (zipSelect store files_to_zip))) := by
  have key : ∀ (files : List FPath) (acc : List (String × FileData)),
      files.foldl (fun acc file_path =>
        match Store.read store file_path with
        | some d => acc ++ [(file_path.name, d)]
        | none => acc) acc = acc ++ zipSelect store files := by
    intro files
    induction files with
    | nil => intro acc; simp [zipSelect]
    | cons p rest ih =>
      intro acc
      cases hread : Store.read store p <;>
        simp [zipSelect, List.filterMap_cons, hread, ih, List.foldl_cons]
  simp [generate_zip, key]

/-! ### Claim C3 -/

/-- A second pending record whose pikepdf pass will fail mid-entry. -/
def certRecA : CertRecord :=
  ⟨"recA", [("Certification_ID", .str "CERT-A"), ("Status", .str "Active"),
            ("Issue_Now", .boolean true)]⟩

/-- A pending record for which rendering succeeds but the pikepdf pass raises
after `doc.build` already wrote the document file. -/
def certRecB : CertRecord :=
  ⟨"recB", [("Certification_ID", .str "CERT-B"), ("Status", .str "Active"),
            ("Issue_Now", .boolean true)]⟩

/-- External behaviour: entry `recB` fails its pikepdf pass, all else succeeds. -/
def extBFails : String → EntryExt :=
  fun rid => if rid = "recB" then ⟨true, false⟩ else ⟨true, true⟩

/-- The live run in which `CERT-A` succeeds and `CERT-B` fails mid-entry. -/
def runC3 : RunResult :=
  main hFix szFix extBFails true false "2025-03-03 00:00:00 UTC" [] [certRecA, certRecB]

/-- Claim C3, counterexample: `CERT-B` fails before its archive exists, yet the
partially written document of the failed entry sits under `packs/` and
`git add packs/` stages everything, so the published batch contains the failed
entry's partial artifact. -/
theorem C3_counterexample_partial_artifact_published :
    runC3.failed = [⟨"recB", "CERT-B", "pikepdf error"⟩]
    ∧ runC3.published = some runC3.store
    ∧ Store.read runC3.store (output_pathOf certRecB.fields)
      = some (.pdf (buildStory certRecB.fields "2025-03-03 00:00:00 UTC")) :=
  ⟨rfl, rfl, rfl⟩

/-- Claim C3, amended: only an entry that fails at the very first external step
(document rendering, before any file write) leaves the store untouched and
contributes nothing to the published batch; an entry failing after its document
was written leaves that partial document in the store, and the batch commit
publishes it (see the counterexample). -/
theorem C3_amended_render_failure_touches_nothing
    (h : FileData → String) (sz : FileData → Nat) (pb : Bool) (now : String)
    (store : Store) (cert : CertRecord) :
    processEntry h sz ⟨false, pb⟩ now store cert
      = (store, .inr ⟨cert.id, cert_idOf cert.fields, "render error"⟩) := by
  simp [processEntry, generate_pdf]

/-! ### Claim C4 -/

/-- Claim C4, counterexample: identical entry field set and rendering engine,
two runs at different instants — the script embeds `datetime.now()` in the
document content and metadata, so the produced document differs and the claim
of byte-identical output fails. -/
theorem C4_counterexample_document_depends_on_clock :
    Store.read (generate_pdf hFix ⟨true, true⟩ [] certRecCERT002
        (output_pathOf certRecCERT002.fields) "2025-01-01 00:00:00 UTC").1
        (output_pathOf certRecCERT002.fields)
      ≠ Store.read (generate_pdf hFix ⟨true, true⟩ [] certRecCERT002
        (output_pathOf certRecCERT002.fields) "2025-01-02 00:00:00 UTC").1
        (output_pathOf certRecCERT002.fields) := by
  intro hcontra
  have hsome : some (FileData.pdf (pdfDocOf certRecCERT002.fields "2025-01-01 00:00:00 UTC"))
      = some (FileData.pdf (pdfDocOf certRecCERT002.fields "2025-01-02 00:00:00 UTC")) := hcontra
  have hdocs : pdfDocOf certRecCERT002.fields "2025-01-01 00:00:00 UTC"
      = pdfDocOf certRecCERT002.fields "2025-01-02 00:00:00 UTC" := by
    injection hsome with hpdf
    injection hpdf
  exact absurd hdocs (by decide)

/-- Claim C4, amended: document generation is deterministic given the field
set, the engine, AND the generation timestamp: two successful `generate_pdf`
runs over the same field set leave identical document content at `output_path`
exactly when their clock readings coincide. -/
theorem C4_amended_deterministic_given_timestamp
    (h : FileData → String) (store : Store) (cert : CertRecord) (p : FPath)
    (t t' : String) :
    Store.read (generate_pdf h ⟨true, true⟩ store cert p t).1 p
      = Store.read (generate_pdf h ⟨true, true⟩ store cert p t').1 p
    ↔ t = t' := by
  simp only [generate_pdf, if_true, Store.read_write_self, Option.some.injEq]
  constructor
  · intro hcontra
    injection hcontra with hpdf
    exact (pdfDocOf_inj_now cert.fields t t').mp hpdf
  · intro hsub
    rw [hsub]

/-! ### Claim C5 -/

/-- Claim C5: if the batch transport (the single `git commit/push`) fails in a
live run, every update the run issues carries a failure payload — each entry of
the published batch gets the shared detail "Git commit failed", each
generation-failed entry its own error — and no entry receives the success
payload. -/
theorem C5_transport_failure_fails_every_entry
    (h : FileData → String) (sz : FileData → Nat) (extOf : String → EntryExt)
    (now : String) (store₀ : Store) (records : List CertRecord) :
    (main h sz extOf false false now store₀ records).updates
      = (main h sz extOf false false now store₀ records).generated.map (fun item =>
          (⟨item.record_id, failurePayload (some "Git commit failed") now⟩ : AirtableUpdate))
        ++ (main h sz extOf false false now store₀ records).failed.map (fun item =>
          (⟨item.record_id, failurePayload (some item.error) now⟩ : AirtableUpdate)) := by
  have hlive := main_updates_live h sz extOf false now store₀ records
  simpa using hlive

/-! ### Claim C7 -/

/-- Claim C7: for a successfully processed entry, the digest recorded in the
contents manifest is `h` of the exact document bytes that sit at `output_path`
and inside the archive, and the digest recorded in the master manifest is `h`
of the exact archive bytes in the store; both manifests are functions of
artifacts that already exist. -/
theorem C7_manifest_digests_match_artifacts
    (h : FileData → String) (sz : FileData → Nat) (now : String)
    (store : Store) (cert : CertRecord) :
    ∃ d z,
      Store.read (processEntry h sz ⟨true, true⟩ now store cert).1
          (output_pathOf cert.fields) = some d
      ∧ Store.read (processEntry h sz ⟨true, true⟩ now store cert).1
          (zip_pathOf cert.fields) = some z
      ∧ z = .zip [(pdf_nameOf cert.fields, d),
            ("CONTENTS_MANIFEST.txt", .text (String.intercalate "\n"
              (contentsManifestLines (cert_idOf cert.fields) (pdf_nameOf cert.fields)
                (h d) (sz d) now)))]
      ∧ Store.read (processEntry h sz ⟨true, true⟩ now store cert).1
          (contents_manifest_pathOf cert.fields)
        = some (.text (String.intercalate "\n"
            (contentsManifestLines (cert_idOf cert.fields) (pdf_nameOf cert.fields)
              (h d) (sz d) now)))
      ∧ Store.read (processEntry h sz ⟨true, true⟩ now store cert).1
          (master_manifest_pathOf cert.fields)
        = some (.text (String.intercalate "\n"
            (masterManifestLines (cert_idOf cert.fields) (h d) (sz d) (h z) (sz z) now)))
      ∧ (processEntry h sz ⟨true, true⟩ now store cert).2
        = .inl ⟨cert.id, cert_idOf cert.fields, h d, h z⟩ := by
  refine ⟨.pdf (pdfDocOf cert.fields now), zipDataOf h sz cert.fields now,
    ?_, ?_, ?_, ?_, ?_, ?_⟩
  · rw [processEntry_ok_eq]; exact packStore_read_output h sz now store cert
  · rw [processEntry_ok_eq]; exact packStore_read_zip h sz now store cert
  · simp [zipDataOf, zipEntriesOf, cmDataOf]
  · rw [processEntry_ok_eq]
    rw [packStore_read_cm h sz now store cert]
    simp [cmDataOf]
  · rw [processEntry_ok_eq]
    rw [packStore_read_mm h sz now store cert]
    simp [mmDataOf]
  · rw [processEntry_ok_eq]

/-! ### Claim C9 -/

/-- Claim C9: a produced archive's member list is exactly the primary document
and the contents manifest — it never includes a file named `MANIFEST.txt` and
never includes the archive itself — and the stored contents manifest is built
from the primary document's name alone: its single FILE item names the
document, whose name differs from the archive's. -/
theorem C9_archive_and_inner_manifest_never_self_reference
    (h : FileData → String) (sz : FileData → Nat) (now : String)
    (store : Store) (cert : CertRecord) :
    ∃ entries d,
      Store.read (processEntry h sz ⟨true, true⟩ now store cert).1
          (zip_pathOf cert.fields) = some (.zip entries)
      ∧ entries.map Prod.fst = [pdf_nameOf cert.fields, "CONTENTS_MANIFEST.txt"]
      ∧ "MANIFEST.txt" ∉ entries.map Prod.fst
      ∧ zip_nameOf cert.fields ∉ entries.map Prod.fst
      ∧ Store.read (processEntry h sz ⟨true, true⟩ now store cert).1
          (contents_manifest_pathOf cert.fields)
        = some (.text (String.intercalate "\n"
            (contentsManifestLines (cert_idOf cert.fields) (pdf_nameOf cert.fields)
              (h d) (sz d) now)))
      ∧ (contentsManifestLines (cert_idOf cert.fields) (pdf_nameOf cert.fields)
          (h d) (sz d) now)[6]? = some ("1) " ++ pdf_nameOf cert.fields)
      ∧ pdf_nameOf cert.fields ≠ zip_nameOf cert.fields := by
  refine ⟨zipEntriesOf h sz cert.fields now, .pdf (pdfDocOf cert.fields now),
    ?_, ?_, ?_, ?_, ?_, ?_, ?_⟩
  · rw [processEntry_ok_eq]; exact packStore_read_zip h sz now store cert
  · simp [zipEntriesOf]
  · simp only [zipEntriesOf, List.map_cons, List.map_nil, List.mem_cons,
      List.mem_singleton, List.not_mem_nil]
    push_neg
    refine ⟨?_, ?_, fun hcontra => hcontra⟩
    · exact fun hcontra => pdf_name_ne_master_name (cert_idOf cert.fields) hcontra.symm
    · decide
  · simp only [zipEntriesOf, List.map_cons, List.map_nil, List.mem_cons,
      List.mem_singleton, List.not_mem_nil]
    push_neg
    refine ⟨?_, ?_, fun hcontra => hcontra⟩
    · exact fun hcontra => pdf_name_ne_zip_name (cert_idOf cert.fields) hcontra.symm
    · exact zip_name_ne_contents_name (cert_idOf cert.fields)
  · rw [processEntry_ok_eq]
    rw [packStore_read_cm h sz now store cert]
    simp [cmDataOf]
  · rfl
  · exact pdf_name_ne_zip_name (cert_idOf cert.fields)

/-! ### Counting helpers for the update list -/

theorem filter_grid_length (l : List GeneratedItem) (x : String) :
    (l.filter (fun g => g.record_id == x)).length
      = (l.map GeneratedItem.record_id).count x := by
  induction l with
  | nil => simp
  | cons g rest ih =>
    by_cases hx : g.record_id = x
    · simp [List.filter_cons, List.count_cons, hx, ih]
    · simp [List.filter_cons, List.count_cons, hx, ih]

theorem filter_frid_length (l : List FailedItem) (x : String) :
    (l.filter (fun f => f.record_id == x)).length
      = (l.map FailedItem.record_id).count x := by
  induction l with
  | nil => simp
  | cons f rest ih =>
    by_cases hx : f.record_id = x
    · simp [List.filter_cons, List.count_cons, hx, ih]
    · simp [List.filter_cons, List.count_cons, hx, ih]

/-! ### Claim C6 -/

/-- Claim C6: in a live run whose batch publish succeeds, every generated entry
receives exactly one registry status-transition call, and that call carries the
full success payload (both digests, both URLs); applying the success payload
clears the `Issue_Now` gating flag, so the record no longer satisfies the
selection formula and cannot be re-selected. -/
theorem C6_success_updates_once_and_clears_gate
    (h : FileData → String) (sz : FileData → Nat) (extOf : String → EntryExt)
    (now : String) (store₀ : Store) (records : List CertRecord)
    (hnd : ((get_pending_certifications records).map CertRecord.id).Nodup) :
    (∀ item ∈ (main h sz extOf true false now store₀ records).generated,
        (main h sz extOf true false now store₀ records).updates.filter
            (fun u => u.record_id == item.record_id)
          = [⟨item.record_id,
              successPayload item.cert_id item.pdf_sha256 item.zip_sha256 now⟩])
    ∧ (∀ (fields : Fields) (cid ps zs t : String),
        isPending (applyUpdatePayload fields (successPayload cid ps zs t)) = false)
    ∧ (∀ (table : List CertRecord) (rec : CertRecord),
        isPending rec.fields = false → rec ∉ get_pending_certifications table) := by
  refine ⟨?_, isPending_after_success, ?_⟩
  · intro item hitem
    have hcnt := processAll_count h sz extOf now
      (get_pending_certifications records) store₀ item.record_id
    rw [main_generated_eq] at hitem
    have hpos : 0 < ((processAll h sz extOf now store₀
        (get_pending_certifications records)).2.1.map GeneratedItem.record_id).count
          item.record_id :=
      List.count_pos_iff.mpr (List.mem_map_of_mem _ hitem)
    have hle : ((get_pending_certifications records).map CertRecord.id).count
        item.record_id ≤ 1 :=
      (List.nodup_iff_count_le_one.mp hnd) item.record_id
    have hg1 : ((processAll h sz extOf now store₀
        (get_pending_certifications records)).2.1.map GeneratedItem.record_id).count
          item.record_id = 1 := by omega
    have hf0 : ((processAll h sz extOf now store₀
        (get_pending_certifications records)).2.2.map FailedItem.record_id).count
          item.record_id = 0 := by omega
    have hgenfilter : (processAll h sz extOf now store₀
        (get_pending_certifications records)).2.1.filter
          (fun g => g.record_id == item.record_id) = [item] := by
      refine filter_eq_singleton_of_mem_of_length_one _ _ item hitem (by simp) ?_
      rw [filter_grid_length]
      exact hg1
    have hfailfilter : (processAll h sz extOf now store₀
        (get_pending_certifications records)).2.2.filter
          (fun f => f.record_id == item.record_id) = [] := by
      apply List.length_eq_zero.mp
      rw [filter_frid_length]
      exact hf0
    rw [main_updates_live h sz extOf true now store₀ records]
    rw [List.filter_append]
    rw [main_generated_eq, main_failed_eq]
    rw [List.filter_map, List.filter_map]
    have hcg : ((fun u : AirtableUpdate => u.record_id == item.record_id) ∘
        (fun it : GeneratedItem =>
          (⟨it.record_id,
            if true then successPayload it.cert_id it.pdf_sha256 it.zip_sha256 now
            else failurePayload (some "Git commit failed") now⟩ : AirtableUpdate)))
        = fun g : GeneratedItem => g.record_id == item.record_id := rfl
    have hcf : ((fun u : AirtableUpdate => u.record_id == item.record_id) ∘
        (fun it : FailedItem =>
          (⟨it.record_id, failurePayload (some it.error) now⟩ : AirtableUpdate)))
        = fun f : FailedItem => f.record_id == item.record_id := rfl
    rw [hcg, hcf, hgenfilter, hfailfilter]
    simp
  · intro table rec hrec hcontra
    have := List.of_mem_filter hcontra
    rw [hrec] at this
    exact Bool.false_ne_true this

/-- Claim C6 witness: a concrete pending record, live run, publish succeeds. -/
theorem C6_witness :
    ((get_pending_certifications [certRecCERT002]).map CertRecord.id).Nodup
    ∧ ((∀ item ∈ (main hFix szFix extAllOk true false "2025-01-01 00:00:00 UTC"
          [] [certRecCERT002]).generated,
        (main hFix szFix extAllOk true false "2025-01-01 00:00:00 UTC"
            [] [certRecCERT002]).updates.filter
            (fun u => u.record_id == item.record_id)
          = [⟨item.record_id,
              successPayload item.cert_id item.pdf_sha256 item.zip_sha256
                "2025-01-01 00:00:00 UTC"⟩])
      ∧ (∀ (fields : Fields) (cid ps zs t : String),
          isPending (applyUpdatePayload fields (successPayload cid ps zs t)) = false)
      ∧ (∀ (table : List CertRecord) (rec : CertRecord),
          isPending rec.fields = false → rec ∉ get_pending_certifications table)) :=
  ⟨by decide,
   C6_success_updates_once_and_clears_gate hFix szFix extAllOk
     "2025-01-01 00:00:00 UTC" [] [certRecCERT002] (by decide)⟩

/-! ### Claim C8 -/

/-- Claim C8: in any run, every selected entry ends in exactly one terminal
state (its record id is counted exactly once across `generated` and `failed`,
and the two lists together exhaust the selection), and the registry
status-update call is issued at most once per entry per run. -/
theorem C8_single_terminal_state_and_at_most_one_update
    (h : FileData → String) (sz : FileData → Nat) (extOf : String → EntryExt)
    (commitOk dryRun : Bool) (now : String) (store₀ : Store)
    (records : List CertRecord)
    (hnd : ((get_pending_certifications records).map CertRecord.id).Nodup) :
    ((main h sz extOf commitOk dryRun now store₀ records).generated.length
        + (main h sz extOf commitOk dryRun now store₀ records).failed.length
      = (get_pending_certifications records).length)
    ∧ ∀ cert ∈ get_pending_certifications records,
        (((main h sz extOf commitOk dryRun now store₀ records).generated.map
              GeneratedItem.record_id).count cert.id
          + ((main h sz extOf commitOk dryRun now store₀ records).failed.map
              FailedItem.record_id).count cert.id = 1)
        ∧ ((main h sz extOf commitOk dryRun now store₀ records).updates.filter
            (fun u => u.record_id == cert.id)).length ≤ 1 := by
  constructor
  · rw [main_generated_eq, main_failed_eq]
    have hlen := processAll_length h sz extOf now
      (get_pending_certifications records) store₀
    simpa using hlen
  · intro cert hcert
    have hcnt := processAll_count h sz extOf now
      (get_pending_certifications records) store₀ cert.id
    have h1 : ((get_pending_certifications records).map CertRecord.id).count cert.id = 1 :=
      List.count_eq_one_of_mem hnd (List.mem_map_of_mem _ hcert)
    constructor
    · rw [main_generated_eq, main_failed_eq]
      omega
    · cases dryRun
      · rw [filter_rid_length, main_updates_live]
        rw [main_generated_eq, main_failed_eq]
        simp only [List.map_append, List.map_map, List.count_append]
        have hmg : (AirtableUpdate.record_id ∘
            (fun it : GeneratedItem =>
              (⟨it.record_id,
                if commitOk then successPayload it.cert_id it.pdf_sha256 it.zip_sha256 now
                else failurePayload (some "Git commit failed") now⟩ : AirtableUpdate)))
            = GeneratedItem.record_id := rfl
        have hmf : (AirtableUpdate.record_id ∘
            (fun it : FailedItem =>
              (⟨it.record_id, failurePayload (some it.error) now⟩ : AirtableUpdate)))
            = FailedItem.record_id := rfl
        rw [hmg, hmf]
        omega
      · rw [main_updates_dry]
        simp

/-- Claim C8 witness: one concrete pending record, live run with a transport
failure (so the entry ends in its single failure state and gets one update). -/
theorem C8_witness :
    ((get_pending_certifications [certRecCERT002]).map CertRecord.id).Nodup
    ∧ (((main hFix szFix extAllOk false false "2025-01-01 00:00:00 UTC"
          [] [certRecCERT002]).generated.length
        + (main hFix szFix extAllOk false false "2025-01-01 00:00:00 UTC"
            [] [certRecCERT002]).failed.length
      = (get_pending_certifications [certRecCERT002]).length)
    ∧ ∀ cert ∈ get_pending_certifications [certRecCERT002],
        (((main hFix szFix extAllOk false false "2025-01-01 00:00:00 UTC"
              [] [certRecCERT002]).generated.map GeneratedItem.record_id).count cert.id
          + ((main hFix szFix extAllOk false false "2025-01-01 00:00:00 UTC"
              [] [certRecCERT002]).failed.map FailedItem.record_id).count cert.id = 1)
        ∧ ((main hFix szFix extAllOk false false "2025-01-01 00:00:00 UTC"
            [] [certRecCERT002]).updates.filter
            (fun u => u.record_id == cert.id)).length ≤ 1) :=
  ⟨by decide,
   C8_single_terminal_state_and_at_most_one_update hFix szFix extAllOk false false
     "2025-01-01 00:00:00 UTC" [] [certRecCERT002] (by decide)⟩

/-! ### Claim C10 -/

/-- Claim C10: an entry whose field set lacks `Certification_ID` proceeds under
the literal identifier "Unknown"; two such entries in one run share the
namespace `packs/Unknown` — the same output path — and processing the second
replaces the first entry's document there, so (entry identifier, name) is not
unique at the public interface. -/
theorem C10_missing_certification_id_collides_on_unknown
    (h : FileData → String) (sz : FileData → Nat) (now : String) (store : Store)
    (extOf : String → EntryExt) (r1 r2 : CertRecord)
    (h1 : Fields.find r1.fields "Certification_ID" = none)
    (h2 : Fields.find r2.fields "Certification_ID" = none)
    (hx1 : extOf r1.id = ⟨true, true⟩) (hx2 : extOf r2.id = ⟨true, true⟩)
    (hname : Fields.get r1.fields "Entity_Name" "Unknown Entity"
      ≠ Fields.get r2.fields "Entity_Name" "Unknown Entity") :
    cert_idOf r1.fields = "Unknown"
    ∧ cert_idOf r2.fields = "Unknown"
    ∧ output_pathOf r1.fields = output_pathOf r2.fields
    ∧ Store.read (processEntry h sz ⟨true, true⟩ now store r1).1
        (output_pathOf r1.fields) = some (.pdf (pdfDocOf r1.fields now))
    ∧ Store.read (processAll h sz extOf now store [r1, r2]).1
        (output_pathOf r1.fields) = some (.pdf (pdfDocOf r2.fields now))
    ∧ pdfDocOf r2.fields now ≠ pdfDocOf r1.fields now := by
  have hc1 : cert_idOf r1.fields = "Unknown" := by
    simp [cert_idOf, Fields.get, h1]
  have hc2 : cert_idOf r2.fields = "Unknown" := by
    simp [cert_idOf, Fields.get, h2]
  have hpath : output_pathOf r1.fields = output_pathOf r2.fields := by
    simp [output_pathOf, cert_dirOf, pdf_nameOf, hc1, hc2]
  refine ⟨hc1, hc2, hpath, ?_, ?_, ?_⟩
  · rw [processEntry_ok_eq]
    exact packStore_read_output h sz now store r1
  · rw [hpath]
    simp only [processAll, hx1, hx2, processEntry_ok_eq]
    exact packStore_read_output h sz now _ r2
  · intro hcontra
    have hmeta := congrArg PdfDoc.meta hcontra
    simp only [pdfDocOf, pdfMetaOf, Option.some.injEq, PdfMeta.mk.injEq] at hmeta
    exact hname (append_left_cancel_str _ _ _ hmeta.2.2.1).symm

/-- A first record lacking `Certification_ID`. -/
def certRecNoId1 : CertRecord := ⟨"rec1", [("Entity_Name", .str "Acme Corp")]⟩

/-- A second record lacking `Certification_ID`, different entity. -/
def certRecNoId2 : CertRecord := ⟨"rec2", [("Entity_Name", .str "Globex LLC")]⟩

/-- Claim C10 witness: two concrete records without `Certification_ID`. -/
theorem C10_witness :
    Fields.find certRecNoId1.fields "Certification_ID" = none
    ∧ Fields.find certRecNoId2.fields "Certification_ID" = none
    ∧ extAllOk certRecNoId1.id = ⟨true, true⟩
    ∧ extAllOk certRecNoId2.id = ⟨true, true⟩
    ∧ Fields.get certRecNoId1.fields "Entity_Name" "Unknown Entity"
      ≠ Fields.get certRecNoId2.fields "Entity_Name" "Unknown Entity"
    ∧ (cert_idOf certRecNoId1.fields = "Unknown"
      ∧ cert_idOf certRecNoId2.fields = "Unknown"
      ∧ output_pathOf certRecNoId1.fields = output_pathOf certRecNoId2.fields
      ∧ Store.read (processEntry hFix szFix ⟨true, true⟩ "2025-04-04 00:00:00 UTC"
          [] certRecNoId1).1 (output_pathOf certRecNoId1.fields)
        = some (.pdf (pdfDocOf certRecNoId1.fields "2025-04-04 00:00:00 UTC"))
      ∧ Store.read (processAll hFix szFix extAllOk "2025-04-04 00:00:00 UTC"
          [] [certRecNoId1, certRecNoId2]).1 (output_pathOf certRecNoId1.fields)
        = some (.pdf (pdfDocOf certRecNoId2.fields "2025-04-04 00:00:00 UTC"))
      ∧ pdfDocOf certRecNoId2.fields "2025-04-04 00:00:00 UTC"
        ≠ pdfDocOf certRecNoId1.fields "2025-04-04 00:00:00 UTC") :=
  ⟨rfl, rfl, rfl, rfl, by decide,
   C10_missing_certification_id_collides_on_unknown hFix szFix
     "2025-04-04 00:00:00 UTC" [] extAllOk certRecNoId1 certRecNoId2
     rfl rfl rfl rfl (by decide)⟩

end AFGC
